import Mathlib

/-!
Shallow embedding of `piws_setup/piws_setup.py` (a Python 2 installer script)
and proofs about its specified behaviour.

Modelling conventions:
* Python values produced by `json.load` are modelled by `PyVal`
  (Python 2's `json` decodes JSON strings to `unicode`, objects to `dict`,
  arrays to `list`, numbers to `int`/`float`, `null` to `None`).
* A Python `dict` is modelled as an association list with unique keys
  assumed; lookups take the first match.
* `sys.exit()` and raised exceptions are modelled as distinguished result
  constructors rather than as Lean exceptions.
* External processes are modelled by an oracle
  `exec : List String → Option String → ExecResult` giving the exit code and
  captured output of each command (second argument: the optional `cwd`).
* The filesystem is a snapshot of the three predicates the script queries
  (`os.path.lexists`, `os.path.isdir`, `os.path.isfile`).  The installer
  loop records the actions it would perform (external commands, symlink
  creation, reading a `__pkginfo__.py` record) in a trace; the theorems
  proved below conclude either that no filesystem-mutating action occurs or
  that the run aborts before the mutating action, so the snapshot semantics
  agrees with the real, mutating execution on those runs.
-/

/-- Python runtime values as produced by `json.load` in Python 2. -/
inductive PyVal where
  | none_ : PyVal
  | bool_ : Bool → PyVal
  | int_ : Int → PyVal
  | float_ : Rat → PyVal
  | unicode_ : String → PyVal
  | list_ : List PyVal → PyVal
  | dict_ : List (String × PyVal) → PyVal

/-- Python type objects, as returned by `type(...)`, for the values above.
Note `type(None)` is `NoneType`. -/
inductive PyType where
  | noneType | boolT | intT | floatT | unicodeT | listT | dictT
deriving DecidableEq, Repr

/-- The `type(...)` function on our value model. -/
def PyVal.pyType : PyVal → PyType
  | .none_ => .noneType
  | .bool_ _ => .boolT
  | .int_ _ => .intT
  | .float_ _ => .floatT
  | .unicode_ _ => .unicodeT
  | .list_ _ => .listT
  | .dict_ _ => .dictT

/-- A decoded JSON object (Python `dict` keyed by strings). -/
def PyDict := List (String × PyVal)

/-- Python dict membership / lookup (`field_name in json_data`,
`json_data[field_name]`), first match on the association list. -/
def dictGet (d : PyDict) (k : String) : Option PyVal :=
  match List.find? (fun p => p.1 = k) d with
  | some p => some p.2
  | none => none

/-- The `expected_types` table from `check_configuration_integrity`
(piws_setup.py, lines 99-104).  Each entry of a Python list such as
`[unicode, None]` is either a type object or the value `None`; we model a
type object as `some t` and the value `None` as `none`.  The membership
test `type(json_data[field_name]) not in field_types` compares the type
object `type(v)` with each list element, so the `None` element can never
match (since `type(None)` is the type `NoneType`, not the value `None`). -/
def expected_types : List (String × List (Option PyType)) :=
  [("version", [some .unicodeT, none]),
   ("hg_cubes", [some .dictT]),
   ("git_cubes", [some .dictT]),
   ("pypi_tools", [some .listT])]

/-- Possible results of `check_configuration_integrity`:
* `ok` — the function returns normally (`fails == 0`);
* `nameError` — a field was missing and line 111 evaluated the undefined
  name `key` while building the message, raising `NameError` before
  anything about that field is printed;
* `corrupted vs` — all fields were present, `vs` records (by field name,
  in iteration order) one printed wrong-type violation per offending
  field, and the function printed them all and called `sys.exit()`. -/
inductive CheckResult where
  | ok : CheckResult
  | nameError : CheckResult
  | corrupted : List String → CheckResult
deriving DecidableEq, Repr

/-- The field-checking loop of `check_configuration_integrity`
(lines 106-118), folding over the `expected_types` entries while counting
failures and accumulating the printed violations (abbreviated here to the
offending field name).  Python 2 iterates the dict in a hash-determined
order; that order only permutes the violation list and selects which
missing field raises first, and no theorem below depends on it, so we use
the source listing order. -/
def checkFields (json_data : PyDict) :
    List (String × List (Option PyType)) → Nat → List String → CheckResult
  | [], fails, msgs => if fails ≠ 0 then .corrupted msgs else .ok
  | (field_name, field_types) :: rest, fails, msgs =>
    match dictGet json_data field_name with
    | none => .nameError
    | some v =>
      if some v.pyType ∈ field_types then
        checkFields json_data rest fails msgs
      else
        checkFields json_data rest (fails + 1) (msgs ++ [field_name])

/-- Model of `check_configuration_integrity(json_data, file_name)`
(lines 88-123).  The `file_name` argument only feeds the printed messages
and is dropped. -/
def check_configuration_integrity (json_data : PyDict) : CheckResult :=
  checkFields json_data expected_types 0 []

/-- Possible results of `load_configuration` on a successfully parsed
JSON object. -/
inductive LoadResult where
  | returned : PyDict → LoadResult
  | exited : List String → LoadResult
  | nameError : LoadResult

/-- Model of `load_configuration(file_name)` (lines 126-147) after the file
was opened and parsed successfully into the object `json_data`: it runs
`check_configuration_integrity` and returns `json_data` unchanged when the
check passes.  (The `IOError` branch exits before producing a value and is
outside every claim below.) -/
def load_configuration (json_data : PyDict) : LoadResult :=
  match check_configuration_integrity json_data with
  | .ok => .returned json_data
  | .nameError => .nameError
  | .corrupted vs => .exited vs




/-- Exit code and captured output of one external process
(`p.communicate()` plus `p.returncode`). -/
structure ExecResult where
  returncode : Int
  stdout : String
  stderr : String

/-- Oracle giving each external command's result; the second argument is
the optional `cwd` keyword passed to `subprocess.Popen`. -/
def Exec := List String → Option String → ExecResult

/-- One line written through the script logger, tagged with its level. -/
inductive LogEntry where
  | debug : String → LogEntry
  | error : String → LogEntry
deriving DecidableEq, Repr

/-- The `subprocess.CalledProcessError(p.returncode, command)` raised by
`check_call_with_log` on a non-zero exit. -/
structure CalledProcessError where
  returncode : Int
  cmd : List String
deriving DecidableEq, Repr

/-- Model of `check_call_with_log(command, **kwargs)` (lines 204-236),
given the child's result `res`.  `cwd?` is the `cwd` keyword if passed and
`curdir` is the ambient `os.getcwd()`.  Returns the emitted log lines and
the raised `CalledProcessError`, if any.  Python truthiness: `if stdout:`
holds exactly when the captured string is non-empty, and `if p.returncode:`
exactly when the exit code is non-zero. -/
def check_call_with_log (command : List String) (cwd? : Option String)
    (curdir : String) (res : ExecResult) :
    List LogEntry × Option CalledProcessError :=
  let logs :=
    [LogEntry.debug "--- COMMAND ---",
     LogEntry.debug (String.intercalate " " command),
     LogEntry.debug ("CWD =" ++ cwd?.getD curdir),
     LogEntry.debug "--- OUTPUT ---"]
    ++ (if res.stdout = "" then [] else [LogEntry.debug res.stdout])
    ++ (if res.stderr = "" then [] else [LogEntry.error res.stderr])
    ++ [LogEntry.debug ("--- COMMAND STATUS = " ++ toString res.returncode
        ++ " ---")]
  (logs,
   if res.returncode = 0 then none
   else some ⟨res.returncode, command⟩)

/-- Runs a command through `check_call_with_log` with the `exec` oracle and
keeps only the raised error (the callers below never consume the logs). -/
def runLogged (exec : Exec) (curdir : String) (cmd : List String)
    (cwd? : Option String) : Option CalledProcessError :=
  (check_call_with_log cmd cwd? curdir (exec cmd cwd?)).2

/-- Model of `hg_dl(package_url, package_name, package_version,
package_folder)` (lines 239-260): clone, then `hg update` exactly when a
version is given.  Returns the issued commands (with their `cwd` keyword)
in order, and the first propagated `CalledProcessError`; a failing clone
aborts before the update is issued. -/
def hg_dl (exec : Exec) (curdir : String) (package_url package_name : String)
    (package_version : Option String) (package_folder : String) :
    List (List String × Option String) × Option CalledProcessError :=
  let cmd := ["hg", "clone", package_url, package_folder]
  match runLogged exec curdir cmd none with
  | some e => ([(cmd, none)], some e)
  | none =>
    match package_version with
    | none => ([(cmd, none)], none)
    | some v =>
      let cmd2 := ["hg", "update", "--cwd", package_folder, v]
      ([(cmd, none), (cmd2, none)], runLogged exec curdir cmd2 none)

/-- Model of `git_dl(package_url, package_name, package_version,
package_folder)` (lines 263-284): clone, then `git checkout` run with
`cwd=package_folder` exactly when a version is given. -/
def git_dl (exec : Exec) (curdir : String) (package_url package_name : String)
    (package_version : Option String) (package_folder : String) :
    List (List String × Option String) × Option CalledProcessError :=
  let cmd := ["git", "clone", package_url, package_folder]
  match runLogged exec curdir cmd none with
  | some e => ([(cmd, none)], some e)
  | none =>
    match package_version with
    | none => ([(cmd, none)], none)
    | some v =>
      let cmd2 := ["git", "checkout", v]
      ([(cmd, none), (cmd2, some package_folder)],
       runLogged exec curdir cmd2 (some package_folder))

/-- Snapshot of the three filesystem predicates the installer queries. -/
structure FS where
  lexists : String → Bool
  isdir : String → Bool
  isfile : String → Bool

/-- `os.path.join` for the single-component joins the script performs. -/
def pjoin (a b : String) : String := a ++ "/" ++ b

/-- One action the per-component loop performs against the outside world:
an external command issued through `check_call_with_log` (with its `cwd`
keyword), an `os.symlink(source, linkName)` call, or reading the
`__pkginfo__.py` record via `execfile` (a read, the tool never writes
it). -/
inductive Act where
  | runCmd : List String → Option String → Act
  | symlink : String → String → Act
  | readPkg : String → Act
deriving DecidableEq, Repr

/-- Whether an action can alter the filesystem: commands and symlink
creation can, reading a pkg-info record cannot. -/
def Act.mutates : Act → Bool
  | .runCmd _ _ => true
  | .symlink _ _ => true
  | .readPkg _ => false

/-- Whether an action is a symlink creation. -/
def Act.isSymlink : Act → Bool
  | .symlink _ _ => true
  | _ => false

/-- Whether an action is an external command of one of the two VCS
backends (an `hg` or `git` invocation — every clone and every
checkout/update is one of these). -/
def Act.isVcsCmd : Act → Bool
  | .runCmd cmd _ => cmd.head? == some "hg" || cmd.head? == some "git"
  | _ => false

/-- How one component's processing (or the whole loop) ends:
normally, with a propagated `CalledProcessError`, with the
"folder do not contain a cube" exception (carrying the offending folder),
or with the dead "Unknown repository type" exception. -/
inductive LoopOutcome where
  | ok : LoopOutcome
  | cmdError : CalledProcessError → LoopOutcome
  | invalidCube : String → LoopOutcome
  | unknownRepo : String → LoopOutcome
deriving DecidableEq, Repr

/-- One entry of `hg_cubes` / `git_cubes`: the unpacked
`package_name, package_version, cube_relative_path = package_item`
(line 332), already well-typed — the claims below all concern
configurations whose entries unpack successfully. -/
structure CubeItem where
  package_name : String
  package_version : Option String
  cube_relative_path : String
deriving DecidableEq, Repr

/-- The body of the per-component export loop (lines 331-369) for one
`(package_url, package_item)` pair of `cubes.items()`, against the
filesystem snapshot `fs`.  Returns the trace of performed actions and the
outcome.  Structure mirrors the source: if the link target `cube_folder`
does not exist (`lexists`, so a dangling symlink also counts as present),
either fetch (clone directory absent) or validate the existing clone via
its `__pkginfo__.py`, then symlink; otherwise read `__pkginfo__.py` at the
link target and skip, failing when it is missing. -/
def processCube (exec : Exec) (curdir : String) (fs : FS)
    (cubes_path clone_directory repo_type package_url : String)
    (c : CubeItem) : List Act × LoopOutcome :=
  let cube_folder := pjoin cubes_path c.package_name
  let package_folder := pjoin clone_directory c.package_name
  let package_cube_folder := pjoin package_folder c.cube_relative_path
  if !(fs.lexists cube_folder) then
    if !(fs.isdir package_folder) then
      let dl :=
        if repo_type = "hg" then
          some (hg_dl exec curdir package_url c.package_name
            c.package_version package_folder)
        else if repo_type = "git" then
          some (git_dl exec curdir package_url c.package_name
            c.package_version package_folder)
        else none
      match dl with
      | none => ([], .unknownRepo repo_type)
      | some (cmds, err?) =>
        let acts := cmds.map fun p => Act.runCmd p.1 p.2
        match err? with
        | some e => (acts, .cmdError e)
        | none =>
          (acts ++ [Act.symlink package_cube_folder cube_folder], .ok)
    else
      let pkginfo := pjoin package_cube_folder "__pkginfo__.py"
      if fs.isfile pkginfo then
        ([Act.readPkg pkginfo,
          Act.symlink package_cube_folder cube_folder], .ok)
      else
        ([], .invalidCube package_cube_folder)
  else
    let pkginfo := pjoin cube_folder "__pkginfo__.py"
    if fs.isfile pkginfo then
      ([Act.readPkg pkginfo], .ok)
    else
      ([], .invalidCube cube_folder)

/-- The inner `for package_url, package_item in cubes.items()` loop over
one backend's components; an exception from any component aborts the rest
of the loop. -/
def runCubeList (exec : Exec) (curdir : String) (fs : FS)
    (cubes_path clone_directory repo_type : String) :
    List (String × CubeItem) → List Act × LoopOutcome
  | [] => ([], .ok)
  | (package_url, c) :: rest =>
    match processCube exec curdir fs cubes_path clone_directory repo_type
        package_url c with
    | (acts, .ok) =>
      let (acts2, out2) := runCubeList exec curdir fs cubes_path
        clone_directory repo_type rest
      (acts ++ acts2, out2)
    | (acts, out) => (acts, out)

/-- The outer `for repo_type, cubes in [("hg", hg_cubes), ("git",
git_cubes)]` loop (line 330). -/
def cubes_export_loop (exec : Exec) (curdir : String) (fs : FS)
    (cubes_path clone_directory : String)
    (hg_cubes git_cubes : List (String × CubeItem)) :
    List Act × LoopOutcome :=
  match runCubeList exec curdir fs cubes_path clone_directory "hg"
      hg_cubes with
  | (acts, .ok) =>
    let (acts2, out2) := runCubeList exec curdir fs cubes_path
      clone_directory "git" git_cubes
    (acts ++ acts2, out2)
  | r => r

/-- The `pip install` loop over `pypi_tools` (lines 322-326); a failing
install raises and aborts the rest. -/
def pypiStep (exec : Exec) (curdir : String) :
    List String → List Act × Option CalledProcessError
  | [] => ([], none)
  | tool_name :: rest =>
    let cmd := ["pip", "install", tool_name]
    match runLogged exec curdir cmd none with
    | some e => ([Act.runCmd cmd none], some e)
    | none =>
      let (acts, err?) := pypiStep exec curdir rest
      (Act.runCmd cmd none :: acts, err?)

/-- The module-level installation tail (lines 321-369): the pypi install
loop followed by the cubes export loop, with a failing pip install
aborting before any cube is processed. -/
def installerRun (exec : Exec) (curdir : String) (fs : FS)
    (cubes_path clone_directory : String) (pypi_tools : List String)
    (hg_cubes git_cubes : List (String × CubeItem)) :
    List Act × LoopOutcome :=
  match pypiStep exec curdir pypi_tools with
  | (acts, some e) => (acts, .cmdError e)
  | (acts, none) =>
    let (acts2, out2) := cubes_export_loop exec curdir fs cubes_path
      clone_directory hg_cubes git_cubes
    (acts ++ acts2, out2)

/-- Result of the selection flow of `choose_version_to_install`:
* `chosen version file` — a valid index was entered; the function printed
  the chosen version and returned the file path;
* `waiting` — the supplied input stream ran out while the loop was still
  reprompting (the real loop would block for more input);
* `indexError` — `files_names[int(user_input)]` (line 198, outside the
  `try`) raised; unreachable when the two lists have equal length, which
  the source guarantees by building them in one loop;
* `noConfig` — no `.conf` file was found, the function printed a message
  and called `sys.exit()`. -/
inductive ChooseResult where
  | chosen : String → String → ChooseResult
  | waiting : ChooseResult
  | indexError : ChooseResult
  | noConfig : ChooseResult
deriving DecidableEq, Repr

/-- The dict `version_choices = dict(enumerate(available_versions))`
(line 179), as an association list keyed by the enumeration index. -/
def version_choices (available_versions : List String) :
    List (Nat × String) :=
  available_versions.enum

/-- Python dict lookup `version_choices[int(user_input)]` with an `Int`
key: the keys are the `Nat` indices from `enumerate`, so a negative key
never matches. -/
def dict_get (choices : List (Nat × String)) (k : Int) : Option String :=
  match choices.find? (fun p => (p.1 : Int) = k) with
  | some p => some p.2
  | none => none

/-- The `while True` prompt loop of `choose_version_to_install`
(lines 189-198), driven by the stream of user inputs.  Each element of
`inputs` is the outcome of `int(raw_input())`: `none` when `int` raised
`ValueError` on non-integer text, `some k` when it parsed to `k`.  The
bare `except` (line 194) catches both that `ValueError` and the dict
`KeyError` for an out-of-range key, prints a message and reprompts;
otherwise the loop prints the chosen version and returns
`files_names[int(user_input)]`. -/
def promptLoop (available_versions files_names : List String) :
    List (Option Int) → ChooseResult
  | [] => .waiting
  | user_input :: rest =>
    match user_input with
    | none => promptLoop available_versions files_names rest
    | some k =>
      match dict_get (version_choices available_versions) k with
      | none => promptLoop available_versions files_names rest
      | some choice =>
        match files_names.get? k.toNat with
        | some f => .chosen choice f
        | none => .indexError

/-- Model of `choose_version_to_install(config_folder)` (lines 150-201).
`config_files` is the glob listing of `*.conf` files in listing order;
`loader` gives the `version` field successfully extracted by
`load_configuration` from each file (the claims below concern runs where
every candidate file validates), so `available_versions` and
`files_names` are built in the same loop and always have equal length. -/
def choose_version_to_install (config_files : List String)
    (loader : String → String) (inputs : List (Option Int)) : ChooseResult :=
  if config_files.isEmpty then .noConfig
  else
    let available_versions := config_files.map loader
    let files_names := config_files
    promptLoop available_versions files_names inputs



/-- Auxiliary: the field key of `valid_key` — whether a parsed user input
is a key of `dict(enumerate(available_versions))` when the list has `n`
entries. -/
def valid_key (n : Nat) (i : Option Int) : Bool :=
  match i with
  | none => false
  | some j => decide (0 ≤ j) && decide (j < (n : Int))

/-- C1: for a configuration object missing a required field,
`check_configuration_integrity` does not print one violation per
offending field and exit: line 111 references the undefined name `key`,
so the first missing field raises a catchable `NameError` instead
(first conjunct).  The wrong-type path, where the slip is not reached,
does collect one violation per offending field before exiting (second
conjunct), which is the behaviour the claim describes. -/
theorem c1_missing_field_raises_name_error :
    check_configuration_integrity
      [("hg_cubes", .dict_ []), ("git_cubes", .dict_ []),
       ("pypi_tools", .list_ [])] = .nameError
    ∧ check_configuration_integrity
      [("version", .dict_ []), ("hg_cubes", .list_ []),
       ("git_cubes", .dict_ []), ("pypi_tools", .list_ [])]
      = .corrupted ["version", "hg_cubes"] :=
  ⟨rfl, rfl⟩

/-- C5: a configuration whose `version` is `null` and whose other three
fields have the accepted types is rejected, not accepted: the check
compares `type(None)` (that is, `NoneType`) against the list
`[unicode, None]`, and the value `None` in that list never equals the
type `NoneType`, so a wrong-type violation is recorded for `version` and
the process exits instead of `load_configuration` returning the object. -/
theorem c5_null_version_rejected :
    load_configuration
      [("version", .none_), ("hg_cubes", .dict_ []),
       ("git_cubes", .dict_ []), ("pypi_tools", .list_ [])]
      = .exited ["version"] :=
  rfl

/-- C10: validation looks only at the top-level type of each of the four
required fields: whenever `version` is a string and `hg_cubes`,
`git_cubes` are objects and `pypi_tools` is an array,
`load_configuration` returns the object unchanged, whatever the nested
contents of those fields are. -/
theorem c10_validation_is_shallow (d : PyDict) (v hc gc pt : PyVal)
    (hv : dictGet d "version" = some v) (hvt : v.pyType = .unicodeT)
    (hh : dictGet d "hg_cubes" = some hc) (hht : hc.pyType = .dictT)
    (hg : dictGet d "git_cubes" = some gc) (hgt : gc.pyType = .dictT)
    (hp : dictGet d "pypi_tools" = some pt) (hpt : pt.pyType = .listT) :
    load_configuration d = .returned d := by
  unfold load_configuration check_configuration_integrity expected_types
  simp [checkFields, hv, hh, hg, hp, hvt, hht, hgt, hpt]

/-- Witness for C10 at a concrete configuration whose nested contents are
malformed — one `hg_cubes` entry is a number rather than a
`[name, revision, relativePath]` triple, one `git_cubes` entry is a
1-element array, and `pypi_tools` holds a number and a null — yet
`load_configuration` returns it. -/
theorem c10_validation_is_shallow_witness :
    load_configuration
      [("version", .unicode_ "2.0"),
       ("hg_cubes", .dict_ [("https://h/x", .int_ 3)]),
       ("git_cubes", .dict_ [("https://g/y", .list_ [.unicode_ "solo"])]),
       ("pypi_tools", .list_ [.int_ 7, .none_])]
      = .returned
      [("version", .unicode_ "2.0"),
       ("hg_cubes", .dict_ [("https://h/x", .int_ 3)]),
       ("git_cubes", .dict_ [("https://g/y", .list_ [.unicode_ "solo"])]),
       ("pypi_tools", .list_ [.int_ 7, .none_])] :=
  c10_validation_is_shallow _ _ _ _ _ rfl rfl rfl rfl rfl rfl rfl rfl

/-- C7: `check_call_with_log` raises `CalledProcessError`, carrying
exactly the child's exit code and the command, precisely when the exit
code is non-zero, and returns without raising precisely when the exit
code is zero. -/
theorem c7_check_call_raises_iff_nonzero :
    ∀ (command : List String) (cwd? : Option String) (curdir : String)
      (res : ExecResult),
    ((check_call_with_log command cwd? curdir res).2
        = some ⟨res.returncode, command⟩ ↔ res.returncode ≠ 0)
    ∧ ((check_call_with_log command cwd? curdir res).2 = none
        ↔ res.returncode = 0) := by
  intro command cwd? curdir res
  by_cases h : res.returncode = 0 <;> simp [check_call_with_log, h]

/-- C9: two independent properties of `check_call_with_log`, for any
command and any child result — the exit code `res.returncode` is
arbitrary, in particular it may be zero: whenever the captured stderr is
non-empty it is logged at error level (whatever stdout is, empty
included), and whenever the captured stdout is non-empty it is logged at
debug level (whatever stderr is). -/
theorem c9_stderr_always_logged_as_error (command : List String)
    (cwd? : Option String) (curdir : String) (res : ExecResult) :
    (res.stderr ≠ "" →
      LogEntry.error res.stderr
        ∈ (check_call_with_log command cwd? curdir res).1)
    ∧ (res.stdout ≠ "" →
      LogEntry.debug res.stdout
        ∈ (check_call_with_log command cwd? curdir res).1) := by
  constructor
  · intro hs
    by_cases ho : res.stdout = "" <;> simp [check_call_with_log, hs, ho]
  · intro ho
    by_cases hs : res.stderr = "" <;> simp [check_call_with_log, hs, ho]

/-- Witness for C9 at two concrete results: a command that exits with
status zero, writes to stderr and produces no stdout at all still gets an
error-level log line for its stderr; and one that writes only to stdout
gets a debug-level line for it. -/
theorem c9_stderr_always_logged_as_error_witness :
    LogEntry.error "warn"
      ∈ (check_call_with_log ["true"] none "/" ⟨0, "", "warn"⟩).1
    ∧ LogEntry.debug "out"
      ∈ (check_call_with_log ["true"] none "/" ⟨0, "out", ""⟩).1 :=
  ⟨(c9_stderr_always_logged_as_error ["true"] none "/" ⟨0, "", "warn"⟩).1
      (by decide),
   (c9_stderr_always_logged_as_error ["true"] none "/" ⟨0, "out", ""⟩).2
      (by decide)⟩

/-- C8: both fetchers first issue exactly one clone command targeting the
destination directory, and issue the backend's checkout/update command
for the revision exactly when the revision is non-null — so with a null
revision the clone is the only external command.  The hypotheses say the
clone commands succeed (a failing clone raises before any further
command). -/
theorem c8_fetchers_clone_then_checkout (exec : Exec) (curdir : String)
    (package_url package_name package_folder : String)
    (package_version : Option String)
    (hhg : (exec ["hg", "clone", package_url, package_folder]
      none).returncode = 0)
    (hgit : (exec ["git", "clone", package_url, package_folder]
      none).returncode = 0) :
    (hg_dl exec curdir package_url package_name package_version
        package_folder).1
      = (["hg", "clone", package_url, package_folder], none)
        :: (match package_version with
            | none => []
            | some v =>
              [(["hg", "update", "--cwd", package_folder, v], none)])
    ∧ (git_dl exec curdir package_url package_name package_version
        package_folder).1
      = (["git", "clone", package_url, package_folder], none)
        :: (match package_version with
            | none => []
            | some v =>
              [(["git", "checkout", v], some package_folder)]) := by
  constructor
  · unfold hg_dl runLogged check_call_with_log
    simp only [hhg, if_pos rfl]
    cases package_version <;> rfl
  · unfold git_dl runLogged check_call_with_log
    simp only [hgit, if_pos rfl]
    cases package_version <;> rfl

/-- Witness for C8 at a concrete url, folder and pinned revision, with an
oracle under which every command succeeds: each fetcher issues the clone
and then the revision checkout/update. -/
theorem c8_fetchers_clone_then_checkout_witness :
    (hg_dl (fun _ _ => ⟨0, "", ""⟩) "/" "https://h/x" "mycube" (some "v1")
        "/clones/mycube").1
      = [(["hg", "clone", "https://h/x", "/clones/mycube"], none),
         (["hg", "update", "--cwd", "/clones/mycube", "v1"], none)]
    ∧ (git_dl (fun _ _ => ⟨0, "", ""⟩) "/" "https://h/x" "mycube" (some "v1")
        "/clones/mycube").1
      = [(["git", "clone", "https://h/x", "/clones/mycube"], none),
         (["git", "checkout", "v1"], some "/clones/mycube")] :=
  c8_fetchers_clone_then_checkout (fun _ _ => ⟨0, "", ""⟩) "/" "https://h/x"
    "mycube" "/clones/mycube" (some "v1") rfl rfl

/-- Helper: a component whose link target exists and carries a
`__pkginfo__.py` is only read and skipped. -/
theorem processCube_already_linked (exec : Exec) (curdir : String) (fs : FS)
    (cubes_path clone_directory repo_type package_url : String)
    (c : CubeItem)
    (h1 : fs.lexists (pjoin cubes_path c.package_name) = true)
    (h2 : fs.isfile (pjoin (pjoin cubes_path c.package_name)
      "__pkginfo__.py") = true) :
    processCube exec curdir fs cubes_path clone_directory repo_type
      package_url c
      = ([Act.readPkg (pjoin (pjoin cubes_path c.package_name)
          "__pkginfo__.py")], .ok) := by
  unfold processCube
  simp [h1, h2]

/-- C3: for a component whose link target already exists (as any
filesystem entry, `lexists`) and holds a `__pkginfo__.py` record, the
loop body performs exactly one action — reading that record — so it
invokes no fetcher, issues no external command, creates no symlink, and
performs no filesystem-mutating action at all for that component. -/
theorem c3_already_linked_component_untouched (exec : Exec)
    (curdir : String) (fs : FS)
    (cubes_path clone_directory repo_type package_url : String)
    (c : CubeItem)
    (h1 : fs.lexists (pjoin cubes_path c.package_name) = true)
    (h2 : fs.isfile (pjoin (pjoin cubes_path c.package_name)
      "__pkginfo__.py") = true) :
    processCube exec curdir fs cubes_path clone_directory repo_type
      package_url c
      = ([Act.readPkg (pjoin (pjoin cubes_path c.package_name)
          "__pkginfo__.py")], .ok)
    ∧ ∀ a ∈ (processCube exec curdir fs cubes_path clone_directory
        repo_type package_url c).1, a.mutates = false := by
  have h := processCube_already_linked exec curdir fs cubes_path
    clone_directory repo_type package_url c h1 h2
  refine ⟨h, ?_⟩
  rw [h]
  intro a ha
  simp only [List.mem_singleton] at ha
  subst ha
  rfl

/-- Witness for C3: concrete component against a filesystem snapshot on
which every path exists; the loop body only reads the pkg-info record. -/
theorem c3_already_linked_component_untouched_witness :
    processCube (fun _ _ => ⟨0, "", ""⟩) "/"
      ⟨fun _ => true, fun _ => true, fun _ => true⟩ "/cubes" "/clones" "hg"
      "https://h/x" ⟨"mycube", some "v1", "."⟩
      = ([Act.readPkg "/cubes/mycube/__pkginfo__.py"], .ok)
    ∧ ∀ a ∈ (processCube (fun _ _ => ⟨0, "", ""⟩) "/"
        ⟨fun _ => true, fun _ => true, fun _ => true⟩ "/cubes" "/clones"
        "hg" "https://h/x" ⟨"mycube", some "v1", "."⟩).1,
      a.mutates = false :=
  c3_already_linked_component_untouched (fun _ _ => ⟨0, "", ""⟩) "/"
    ⟨fun _ => true, fun _ => true, fun _ => true⟩ "/cubes" "/clones" "hg"
    "https://h/x" ⟨"mycube", some "v1", "."⟩ rfl rfl

/-- C4: for a component whose link target does not exist while its clone
directory exists as a directory but the expected sub-path lacks
`__pkginfo__.py`, the loop body raises the "folder do not contain a cube"
exception for that sub-path and its trace is empty — in particular the
`os.symlink` call (which follows the if/else in the source) is never
reached. -/
theorem c4_invalid_clone_raises_before_symlink (exec : Exec)
    (curdir : String) (fs : FS)
    (cubes_path clone_directory repo_type package_url : String)
    (c : CubeItem)
    (h1 : fs.lexists (pjoin cubes_path c.package_name) = false)
    (h2 : fs.isdir (pjoin clone_directory c.package_name) = true)
    (h3 : fs.isfile (pjoin (pjoin (pjoin clone_directory c.package_name)
      c.cube_relative_path) "__pkginfo__.py") = false) :
    processCube exec curdir fs cubes_path clone_directory repo_type
      package_url c
      = ([], .invalidCube (pjoin (pjoin clone_directory c.package_name)
          c.cube_relative_path)) := by
  unfold processCube
  simp [h1, h2, h3]

/-- Witness for C4: a concrete component with a present clone directory,
an absent link target, and no `__pkginfo__.py` at the expected sub-path:
the loop body aborts with the invalid-component error and performs no
action (in particular no symlink). -/
theorem c4_invalid_clone_raises_before_symlink_witness :
    processCube (fun _ _ => ⟨0, "", ""⟩) "/"
      ⟨fun _ => false, fun _ => true, fun _ => false⟩ "/cubes" "/clones"
      "git" "https://g/y" ⟨"mycube", none, "sub"⟩
      = ([], .invalidCube "/clones/mycube/sub") :=
  c4_invalid_clone_raises_before_symlink (fun _ _ => ⟨0, "", ""⟩) "/"
    ⟨fun _ => false, fun _ => true, fun _ => false⟩ "/cubes" "/clones"
    "git" "https://g/y" ⟨"mycube", none, "sub"⟩ rfl rfl rfl

/-- Helper: when every `pip install` exits zero, the pypi loop runs one
pip command per tool and raises nothing. -/
theorem pypiStep_all_ok (exec : Exec) (curdir : String)
    (tools : List String)
    (h : ∀ t ∈ tools, (exec ["pip", "install", t] none).returncode = 0) :
    pypiStep exec curdir tools
      = (tools.map fun t => Act.runCmd ["pip", "install", t] none, none) := by
  induction tools with
  | nil => rfl
  | cons t rest ih =>
    have ht : (exec ["pip", "install", t] none).returncode = 0 :=
      h t (List.mem_cons_self t rest)
    have hrest := ih fun u hu => h u (List.mem_cons_of_mem t hu)
    unfold pypiStep runLogged check_call_with_log
    simp only [ht, if_pos rfl]
    rw [hrest]
    rfl

/-- Helper: when every component of a backend's list is already linked
with a readable pkg-info record, the inner loop only reads those records
and finishes normally. -/
theorem runCubeList_all_linked (exec : Exec) (curdir : String) (fs : FS)
    (cubes_path clone_directory repo_type : String)
    (entries : List (String × CubeItem))
    (h : ∀ e ∈ entries,
      fs.lexists (pjoin cubes_path e.2.package_name) = true
      ∧ fs.isfile (pjoin (pjoin cubes_path e.2.package_name)
          "__pkginfo__.py") = true) :
    runCubeList exec curdir fs cubes_path clone_directory repo_type entries
      = (entries.map fun e => Act.readPkg
          (pjoin (pjoin cubes_path e.2.package_name) "__pkginfo__.py"),
         .ok) := by
  induction entries with
  | nil => rfl
  | cons e rest ih =>
    obtain ⟨h1, h2⟩ := h e (List.mem_cons_self e rest)
    have hrest := ih fun u hu => h u (List.mem_cons_of_mem e hu)
    unfold runCubeList
    rw [processCube_already_linked exec curdir fs cubes_path clone_directory
      repo_type e.1 e.2 h1 h2]
    rw [hrest]
    rfl

/-- C2: second run of the installer against a fully installed target —
every component of both backends is already linked and carries a
pkg-info record, and the (re-run) pip installs all succeed.  The cubes
export loop performs no clone, checkout or symlink: the outcome is `ok`
and no action in the whole trace is a symlink or an `hg`/`git` command;
each component is only read (its pkg-info) and skipped. -/
theorem c2_second_run_is_idempotent (exec : Exec) (curdir : String)
    (fs : FS) (cubes_path clone_directory : String)
    (pypi_tools : List String) (hg_cubes git_cubes : List (String × CubeItem))
    (hpip : ∀ t ∈ pypi_tools,
      (exec ["pip", "install", t] none).returncode = 0)
    (hlinked : ∀ e ∈ hg_cubes ++ git_cubes,
      fs.lexists (pjoin cubes_path e.2.package_name) = true
      ∧ fs.isfile (pjoin (pjoin cubes_path e.2.package_name)
          "__pkginfo__.py") = true) :
    (installerRun exec curdir fs cubes_path clone_directory pypi_tools
      hg_cubes git_cubes).2 = .ok
    ∧ ∀ a ∈ (installerRun exec curdir fs cubes_path clone_directory
        pypi_tools hg_cubes git_cubes).1,
      a.isSymlink = false ∧ a.isVcsCmd = false := by
  have hhg : ∀ e ∈ hg_cubes,
      fs.lexists (pjoin cubes_path e.2.package_name) = true
      ∧ fs.isfile (pjoin (pjoin cubes_path e.2.package_name)
          "__pkginfo__.py") = true :=
    fun e he => hlinked e (List.mem_append_left _ he)
  have hgit : ∀ e ∈ git_cubes,
      fs.lexists (pjoin cubes_path e.2.package_name) = true
      ∧ fs.isfile (pjoin (pjoin cubes_path e.2.package_name)
          "__pkginfo__.py") = true :=
    fun e he => hlinked e (List.mem_append_right _ he)
  have hrun : installerRun exec curdir fs cubes_path clone_directory
      pypi_tools hg_cubes git_cubes
      = ((pypi_tools.map fun t => Act.runCmd ["pip", "install", t] none)
          ++ ((hg_cubes.map fun e => Act.readPkg
              (pjoin (pjoin cubes_path e.2.package_name) "__pkginfo__.py"))
            ++ (git_cubes.map fun e => Act.readPkg
              (pjoin (pjoin cubes_path e.2.package_name) "__pkginfo__.py"))),
         .ok) := by
    unfold installerRun cubes_export_loop
    rw [pypiStep_all_ok exec curdir pypi_tools hpip]
    rw [runCubeList_all_linked exec curdir fs cubes_path clone_directory
      "hg" hg_cubes hhg]
    rw [runCubeList_all_linked exec curdir fs cubes_path clone_directory
      "git" git_cubes hgit]
  rw [hrun]
  refine ⟨rfl, ?_⟩
  intro a ha
  simp only [List.mem_append, List.mem_map] at ha
  rcases ha with ⟨t, _, rfl⟩ | ⟨e, _, rfl⟩ | ⟨e, _, rfl⟩ <;>
    exact ⟨rfl, rfl⟩

/-- Witness for C2: a concrete second run — one pip tool, one hg
component and one git component, both already linked on a filesystem
snapshot where every queried path exists — finishes ok with no symlink
and no VCS command in its trace. -/
theorem c2_second_run_is_idempotent_witness :
    (installerRun (fun _ _ => ⟨0, "", ""⟩) "/"
      ⟨fun _ => true, fun _ => true, fun _ => true⟩ "/cubes" "/clones"
      ["pytest"] [("https://h/x", ⟨"hgcube", some "v1", "."⟩)]
      [("https://g/y", ⟨"gitcube", none, "sub"⟩)]).2 = .ok
    ∧ ∀ a ∈ (installerRun (fun _ _ => ⟨0, "", ""⟩) "/"
        ⟨fun _ => true, fun _ => true, fun _ => true⟩ "/cubes" "/clones"
        ["pytest"] [("https://h/x", ⟨"hgcube", some "v1", "."⟩)]
        [("https://g/y", ⟨"gitcube", none, "sub"⟩)]).1,
      a.isSymlink = false ∧ a.isVcsCmd = false :=
  c2_second_run_is_idempotent (fun _ _ => ⟨0, "", ""⟩) "/"
    ⟨fun _ => true, fun _ => true, fun _ => true⟩ "/cubes" "/clones"
    ["pytest"] [("https://h/x", ⟨"hgcube", some "v1", "."⟩)]
    [("https://g/y", ⟨"gitcube", none, "sub"⟩)]
    (by intro t ht; rfl) (by intro e he; exact ⟨rfl, rfl⟩)

/-- Helper: a key below the enumeration start or at/past its end is not a
key of the enumerated dict. -/
theorem dict_get_enumFrom_none (l : List String) :
    ∀ (s : Nat) (k : Int), k < (s : Int) ∨ (s : Int) + l.length ≤ k →
    dict_get (List.enumFrom s l) k = none := by
  induction l with
  | nil => intro s k _; rfl
  | cons a l ih =>
    intro s k hk
    have hne : ¬ ((s : Int) = k) := by
      rcases hk with h | h
      · omega
      · simp only [List.length_cons] at h
        push_cast at h
        omega
    have hstep : dict_get (List.enumFrom s (a :: l)) k
        = dict_get (List.enumFrom (s + 1) l) k := by
      simp [dict_get, List.enumFrom, List.find?, hne]
    rw [hstep]
    apply ih
    rcases hk with h | h
    · left; omega
    · right
      simp only [List.length_cons] at h
      push_cast at h ⊢
      omega

/-- Helper: the enumerated dict maps the key `s + i` to the `i`-th list
element. -/
theorem dict_get_enumFrom_some (l : List String) :
    ∀ (s i : Nat) (h : i < l.length),
    dict_get (List.enumFrom s l) ((s + i : Nat) : Int)
      = some (l.get ⟨i, h⟩) := by
  induction l with
  | nil => intro s i h; exact absurd h (Nat.not_lt_zero i)
  | cons a l ih =>
    intro s i h
    cases i with
    | zero =>
      simp [dict_get, List.enumFrom, List.find?]
    | succ j =>
      have hne : ¬ ((s : Int) = ((s + (j + 1) : Nat) : Int)) := by
        push_cast
        omega
      have hstep : dict_get (List.enumFrom s (a :: l))
            ((s + (j + 1) : Nat) : Int)
          = dict_get (List.enumFrom (s + 1) l) ((s + (j + 1) : Nat) : Int) := by
        show dict_get ((s, a) :: List.enumFrom (s + 1) l) _ = _
        unfold dict_get
        rw [List.find?_cons_of_neg _
          (by simp only [decide_eq_true_eq]; exact hne)]
      rw [hstep]
      have hkey : (s + (j + 1) : Nat) = ((s + 1) + j : Nat) := by omega
      rw [hkey]
      exact ih (s + 1) j (Nat.lt_of_succ_lt_succ h)

/-- Helper: a valid index is a key of `dict(enumerate(available_versions))`
and maps to the index-th version. -/
theorem dict_get_version_choices_valid (l : List String) (i : Nat)
    (h : i < l.length) :
    dict_get (version_choices l) ((i : Nat) : Int) = some (l.get ⟨i, h⟩) := by
  have := dict_get_enumFrom_some l 0 i h
  simpa [version_choices, List.enum] using this

/-- Helper: an out-of-range integer is not a key of the enumerated dict. -/
theorem dict_get_version_choices_invalid (l : List String) (k : Int)
    (hk : k < 0 ∨ (l.length : Int) ≤ k) :
    dict_get (version_choices l) k = none := by
  apply dict_get_enumFrom_none
  simpa using hk

/-- Helper: an input that is not a valid key (unparsable text or an
out-of-range integer) makes the prompt loop reprompt on the remaining
inputs. -/
theorem promptLoop_skip (avs fns : List String) (b : Option Int)
    (rest : List (Option Int)) (hb : valid_key avs.length b = false) :
    promptLoop avs fns (b :: rest) = promptLoop avs fns rest := by
  cases b with
  | none => rfl
  | some j =>
    have hj : j < 0 ∨ (avs.length : Int) ≤ j := by
      simp only [valid_key, Bool.and_eq_false_iff, decide_eq_false_iff_not,
        not_le, not_lt] at hb
      rcases hb with h | h
      · left; omega
      · right; omega
    have hone : promptLoop avs fns (some j :: rest)
        = match dict_get (version_choices avs) j with
          | none => promptLoop avs fns rest
          | some choice =>
            match fns.get? j.toNat with
            | some f => .chosen choice f
            | none => .indexError := rfl
    rw [hone, dict_get_version_choices_invalid avs j hj]

/-- Helper: a stream of invalid inputs only ever reprompts. -/
theorem promptLoop_all_invalid (avs fns : List String)
    (bads : List (Option Int))
    (h : ∀ b ∈ bads, valid_key avs.length b = false) :
    promptLoop avs fns bads = .waiting := by
  induction bads with
  | nil => rfl
  | cons b rest ih =>
    rw [promptLoop_skip avs fns b rest (h b (List.mem_cons_self b rest))]
    exact ih fun u hu => h u (List.mem_cons_of_mem b hu)

/-- Helper: after any run of invalid inputs, the first valid index `k`
returns the `k`-th version together with the `k`-th file. -/
theorem promptLoop_first_valid (avs fns : List String)
    (bads rest : List (Option Int)) (k : Nat)
    (hka : k < avs.length) (hkf : k < fns.length)
    (hbads : ∀ b ∈ bads, valid_key avs.length b = false) :
    promptLoop avs fns (bads ++ (some (k : Int)) :: rest)
      = .chosen (avs.get ⟨k, hka⟩) (fns.get ⟨k, hkf⟩) := by
  induction bads with
  | nil =>
    simp only [List.nil_append]
    have hone : promptLoop avs fns (some (k : Int) :: rest)
        = match dict_get (version_choices avs) (k : Int) with
          | none => promptLoop avs fns rest
          | some choice =>
            match fns.get? ((k : Int)).toNat with
            | some f => .chosen choice f
            | none => .indexError := rfl
    rw [hone, dict_get_version_choices_valid avs k hka, Int.toNat_natCast k,
      List.get?_eq_get hkf]
  | cons b bs ih =>
    rw [List.cons_append,
      promptLoop_skip avs fns b _ (hbads b (List.mem_cons_self b bs))]
    exact ih fun u hu => hbads u (List.mem_cons_of_mem b hu)

/-- C6: with at least one configuration file found, every user input that
is not a key of the enumerated choices — text `int()` cannot parse, or an
integer outside `0..n-1` — only reprompts (first conjunct: a stream of
such inputs leaves the loop still waiting, it neither terminates nor
errors), and the first valid index `k` entered makes the function return
the `k`-th configuration file in listing order, the same file whose
version was enumerated under index `k` (second conjunct). -/
theorem c6_selector_reprompts_then_returns_kth (config_files : List String)
    (loader : String → String) (bads rest : List (Option Int)) (k : Nat)
    (hk : k < config_files.length)
    (hbads : ∀ b ∈ bads, valid_key config_files.length b = false) :
    choose_version_to_install config_files loader bads = .waiting
    ∧ choose_version_to_install config_files loader
        (bads ++ (some (k : Int)) :: rest)
      = .chosen (loader (config_files.get ⟨k, hk⟩))
          (config_files.get ⟨k, hk⟩) := by
  have hne : config_files.isEmpty = false := by
    cases config_files with
    | nil => exact absurd hk (Nat.not_lt_zero k)
    | cons a l => rfl
  have hlenm : (config_files.map loader).length = config_files.length :=
    List.length_map config_files loader
  have hbads' : ∀ b ∈ bads,
      valid_key (config_files.map loader).length b = false := by
    rw [hlenm]
    exact hbads
  have hka : k < (config_files.map loader).length := by
    rw [hlenm]
    exact hk
  constructor
  · unfold choose_version_to_install
    rw [hne]
    exact promptLoop_all_invalid _ _ bads hbads'
  · unfold choose_version_to_install
    rw [hne]
    show promptLoop (config_files.map loader) config_files _ = _
    rw [promptLoop_first_valid (config_files.map loader) config_files bads
      rest k hka hk hbads']
    have hget : (config_files.map loader).get ⟨k, hka⟩
        = loader (config_files.get ⟨k, hk⟩) := by
      simp [List.getElem_map]
    rw [hget]

/-- Witness for C6: two configuration files; the inputs are unparsable
text, then `-1`, then `5` (all reprompt), then the valid index `1`, on
which the selector returns the second file in listing order together
with its enumerated version. -/
theorem c6_selector_reprompts_then_returns_kth_witness :
    choose_version_to_install ["a.conf", "b.conf"] (fun f => "v-" ++ f)
      [none, some (-1), some 5] = .waiting
    ∧ choose_version_to_install ["a.conf", "b.conf"] (fun f => "v-" ++ f)
        ([none, some (-1), some 5] ++ (some ((1 : Nat) : Int)) :: [some 0])
      = .chosen "v-b.conf" "b.conf" :=
  c6_selector_reprompts_then_returns_kth ["a.conf", "b.conf"]
    (fun f => "v-" ++ f) [none, some (-1), some 5] [some 0] 1
    (by decide) (by decide)

/-- Witness for C7: at exit code 2 the error carrying that code and the
command is raised; at exit code 0 nothing is raised. -/
theorem c7_check_call_raises_iff_nonzero_witness :
    (check_call_with_log ["git", "clone"] none "/" ⟨2, "", "boom"⟩).2
      = some ⟨2, ["git", "clone"]⟩
    ∧ (check_call_with_log ["git", "clone"] none "/" ⟨0, "", ""⟩).2
      = none :=
  ⟨((c7_check_call_raises_iff_nonzero ["git", "clone"] none "/"
      ⟨2, "", "boom"⟩).1).mpr (by decide),
   ((c7_check_call_raises_iff_nonzero ["git", "clone"] none "/"
      ⟨0, "", ""⟩).2).mpr rfl⟩
